import Mathlib

set_option linter.unusedVariables false

/- Verification development for the poll/dedup/fanout core of the
   Arknights bulletin push plugin (src/main.py).

   CPython integers are unbounded, so Int/Nat model them exactly.
   Wall-clock readings of time.time are modelled as rationals; the
   comparisons in the source are order comparisons only.
   Fallible Python operations are modelled in the Except monad, and each
   try/except handler of the source appears as an explicit match on the
   Except value it guards. -/

/-- Python exception values that can cross the boundaries modelled here.
    nameError models the NameError raised by evaluating the unbound
    name json in main.py (the module never imports json). -/
inductive PyErr where
  | nameError
  | valueError
  | typeError
  | integrityError
  | generic (msg : String)
deriving DecidableEq, Repr

/-- A try block whose except-handler swallows every exception and whose
    handler value is an Option result (return None / continue paths in
    main.py map the error case to none). -/
def pyTryOpt {α : Type} (body : Except PyErr (Option α)) : Option α :=
  match body with
  | .error _ => none
  | .ok r => r

/-- A Python configuration value, as returned by bot.get_config. -/
inductive ConfigVal where
  | vInt (n : Int)
  | vBool (b : Bool)
  | vFloat (q : Rat)
  | vStr (s : String)
  | vNone
  | vList
deriving DecidableEq, Repr

/-- ASCII whitespace stripped by the CPython int constructor on strings. -/
def isPyWs (c : Char) : Bool :=
  c = ' ' || c = '\t' || c = '\n' || c = '\r' || c = '\x0b' || c = '\x0c'

/-- Decimal digit test. -/
def isPyDigit (c : Char) : Bool := '0' ≤ c && c ≤ '9'

/-- Remaining digits of an int literal: single underscores are allowed
    between digits (CPython digit grouping), nowhere else. -/
def pyDigitsRest (acc : Nat) : List Char → Option Nat
  | [] => some acc
  | '_' :: c :: rest =>
      if isPyDigit c then pyDigitsRest (acc * 10 + (c.toNat - 48)) rest else none
  | c :: rest =>
      if isPyDigit c then pyDigitsRest (acc * 10 + (c.toNat - 48)) rest else none

/-- Digit run of an int literal: must start with a digit. -/
def pyNatOfChars : List Char → Option Nat
  | [] => none
  | c :: rest => if isPyDigit c then pyDigitsRest (c.toNat - 48) rest else none

/-- Strip leading and trailing whitespace. -/
def stripChars (l : List Char) : List Char :=
  ((l.dropWhile isPyWs).reverse.dropWhile isPyWs).reverse

/-- CPython int(s) for an ASCII decimal string: optional surrounding
    whitespace, optional sign, digits with optional grouping underscores.
    none models the ValueError raised on any other string. -/
def py_int_of_string (s : String) : Option Int :=
  match stripChars s.toList with
  | '+' :: rest => (pyNatOfChars rest).map (fun n => (n : Int))
  | '-' :: rest => (pyNatOfChars rest).map (fun n => -(n : Int))
  | l => (pyNatOfChars l).map (fun n => (n : Int))

/-- CPython int(x) on the configuration values modelled here. Strings
    that do not parse raise ValueError; None and lists raise TypeError;
    floats truncate toward zero; bools are ints. -/
def py_int : ConfigVal → Except PyErr Int
  | .vInt n => .ok n
  | .vBool b => .ok (if b then 1 else 0)
  | .vFloat q => .ok (q.num.tdiv (q.den : Int))
  | .vStr s =>
      match py_int_of_string s with
      | some n => .ok n
      | none => .error .valueError
  | .vNone => .error .typeError
  | .vList => .error .typeError

/-- The handler except (ValueError, TypeError) of timed_check_scheduler:
    those two exception kinds are replaced by the default, any other
    exception keeps propagating. -/
def catch_VT {α : Type} (x : Except PyErr α) (default : α) : Except PyErr α :=
  match x with
  | .error .valueError => .ok default
  | .error .typeError => .ok default
  | .error e => .error e
  | .ok a => .ok a

/-- Standard base64 alphabet. -/
def b64chars : List Char :=
  "ABCDEFGHIJKLMNOPQRSTUVWXYZabcdefghijklmnopqrstuvwxyz0123456789+/".toList

/-- Character of the base64 alphabet at a 6-bit index. -/
def b64char (n : Nat) : Char := b64chars.getD n 'A'

/-- base64.b64encode over a byte list (bytes as Nat values below 256). -/
def b64encodeBytes : List Nat → List Char
  | [] => []
  | [a] => [b64char (a / 4), b64char (a % 4 * 16), '=', '=']
  | [a, b] => [b64char (a / 4), b64char (a % 4 * 16 + b / 16), b64char (b % 16 * 4), '=']
  | a :: b :: c :: rest =>
      b64char (a / 4) :: b64char (a % 4 * 16 + b / 16) ::
        b64char (b % 16 * 4 + c / 64) :: b64char (c % 64) :: b64encodeBytes rest

/-- Boolean list-prefix test over characters. -/
def isPrefixB : List Char → List Char → Bool
  | [], _ => true
  | _ :: _, [] => false
  | a :: as, b :: bs => decide (a = b) && isPrefixB as bs

/-- Boolean contiguous-substring test over characters; the empty needle
    is contained in everything, as for the Python operator in. -/
def isInfixB (n : List Char) : List Char → Bool
  | [] => n.isEmpty
  | c :: rest => isPrefixB n (c :: rest) || isInfixB n rest

/-- The Python expression keyword in title: case-sensitive containment
    of needle as a contiguous substring of hay. -/
def py_in (needle hay : String) : Bool := isInfixB needle.toList hay.toList

/-- Left-to-right non-overlapping replacement with explicit fuel (the
    input length bounds the number of steps taken). -/
def pyReplaceAux (pat rep : List Char) : Nat → List Char → List Char
  | _, [] => []
  | 0, l => l
  | Nat.succ fuel, c :: rest =>
      if isPrefixB pat (c :: rest) then
        rep ++ pyReplaceAux pat rep fuel (List.drop (pat.length - 1) rest)
      else c :: pyReplaceAux pat rep fuel rest

/-- Python str.replace for a nonempty pattern (the only patterns used by
    main.py are the two-character backslash-n sequence and the newline
    character): scan left to right, replacing each non-overlapping
    occurrence of pat by rep. -/
def py_replace (s pat rep : String) : String :=
  String.mk (pyReplaceAux pat.toList rep.toList s.toList.length s.toList)

/-- A row of the bulletin list endpoint payload, after pydantic
    validation (class BulletinListItem of main.py). -/
structure BulletinListItem where
  cid : String
  title : String
  category : Int
  display_time : String
  updated_at : Int
deriving DecidableEq, Repr

/-- The detail endpoint payload, after pydantic validation
    (class BulletinData of main.py). -/
structure BulletinData where
  cid : String
  title : String
  content : String
  banner_image_url : String
  updated_at : Int
deriving DecidableEq, Repr

/-- Outcome of an awaited http_requests.get together with the result of
    running parse_obj on the json body: the request itself may raise,
    the response object may be falsy, or a response with a status code
    arrives and parsing the body yields α or raises. -/
inductive HttpOutcome (α : Type) where
  | raiseExc (e : PyErr)
  | noResp
  | resp (status : Int) (body : Except PyErr α)
deriving Repr

/-- Outcome of the aiohttp banner download: the request may raise, or a
    response arrives whose read() yields the raw bytes or raises, with an
    optional Content-Type header. -/
inductive BannerOutcome where
  | raiseExc (e : PyErr)
  | resp (status : Int) (readResult : Except PyErr (List Nat)) (contentType : Option String)
deriving Repr

/-- Data handed to the renderer template (render_data in main.py). -/
structure RenderData where
  title : String
  banner_url : String
  content : String
  publish_time : String
deriving DecidableEq, Repr

/-- The message chain built by Chain(...).html(template, data, 800, 1):
    whether it was bound to an incoming message, the template path, the
    render data and the fixed layout hints. -/
structure Chain where
  from_message : Bool
  template : String
  data : RenderData
  width : Int
  height : Int
deriving DecidableEq, Repr

/-- The per-cycle external environment of get_latest_bulletin: the
    configured keywords and the outcomes of the network and render
    operations of this cycle. -/
structure CycleEnv where
  keywords : List String
  curr_dir : String
  listOutcome : HttpOutcome (List BulletinListItem)
  detailOutcome : String → HttpOutcome BulletinData
  bannerOutcome : String → BannerOutcome
  htmlRender : String → RenderData → Except PyErr Unit
  fmtTime : Int → String

/-- Issuer context of a command message: data.is_admin, data.channel_id
    and data.instance.appid. -/
structure MsgCtx where
  is_admin : Bool
  channel_id : String
  appid : String
deriving DecidableEq, Repr

/-- One persisted BulletinRecord row: (cid, record_time). The table has
    a uniqueness constraint on cid. -/
abbrev RecordRow := String × Int

/-- Truthiness of BulletinRecord.get_or_none(cid=cid). -/
def has_record (records : List RecordRow) (cid : String) : Bool :=
  records.any (fun r => decide (r.1 = cid))

/-- The inner banner try block of main.py: any exception while fetching,
    reading or encoding the banner is swallowed and the banner string is
    left empty; a non-200 status only logs a warning. On success the
    bytes are base64 encoded into a data URI with the Content-Type
    header, defaulting to image/png. -/
def bannerString (env : CycleEnv) (url : String) : String :=
  match env.bannerOutcome url with
  | .raiseExc _ => ""
  | .resp status readResult contentType =>
      if status = 200 then
        match readResult with
        | .error _ => ""
        | .ok bs =>
            "data:" ++ contentType.getD "image/png" ++ ";base64," ++
              String.mk (b64encodeBytes bs)
      else ""

/-- Body of the per-bulletin try block (lines 175 to 217 of main.py):
    fetch the detail, degrade the banner on failure, normalize the title,
    build the render data and the chain. error models an exception
    reaching the per-bulletin handler; ok none models the continue taken
    on a falsy or non-200 detail response. -/
def process_bulletin_body (env : CycleEnv) (message : Option MsgCtx)
    (b : BulletinListItem) : Except PyErr (Option (Chain × String)) :=
  match env.detailOutcome b.cid with
  | .raiseExc e => .error e
  | .noResp => .ok none
  | .resp status body =>
      if status ≠ 200 then .ok none
      else
        match body with
        | .error e => .error e
        | .ok detail =>
            let banner_base64_string := bannerString env detail.banner_image_url
            let processed_title :=
              py_replace (py_replace detail.title "\\n" " ") "\n" " "
            let template_path := env.curr_dir ++ "/template/bulletin.html"
            let render_data : RenderData :=
              { title := processed_title
                banner_url := banner_base64_string
                content := detail.content
                publish_time := env.fmtTime detail.updated_at }
            match env.htmlRender template_path render_data with
            | .error e => .error e
            | .ok _ =>
                .ok (some
                  ({ from_message := message.isSome
                     template := template_path
                     data := render_data
                     width := 800
                     height := 1 }, detail.cid))

/-- The per-bulletin try block with its handler: the except clause logs
    and continues with the next bulletin, i.e. yields none. -/
def process_bulletin (env : CycleEnv) (message : Option MsgCtx)
    (b : BulletinListItem) : Option (Chain × String) :=
  pyTryOpt (process_bulletin_body env message b)

/-- The two continue guards at the top of the loop (lines 167 and 170):
    a bulletin is kept when some keyword occurs in its title and, unless
    force_latest is set, no BulletinRecord exists for its cid. -/
def qualifies (keywords : List String) (records : List RecordRow)
    (force_latest : Bool) (b : BulletinListItem) : Bool :=
  keywords.any (fun k => py_in k b.title) &&
    (force_latest || !(has_record records b.cid))

/-- Stable descending insertion of one item by updated_at: the item is
    placed before the first element whose key is not greater. -/
def insert_desc (x : BulletinListItem) : List BulletinListItem → List BulletinListItem
  | [] => [x]
  | y :: ys =>
      if y.updated_at ≤ x.updated_at then x :: y :: ys
      else y :: insert_desc x ys

/-- The Python call sorted(items, key=updated_at, reverse=True): the
    stable sort, descending by updated_at with ties kept in feed order.
    Stable descending sorts are unique, so the insertion formulation
    below is extensionally the CPython one; sortedness, permutation and
    stability are proved further down. -/
def sorted_desc : List BulletinListItem → List BulletinListItem
  | [] => []
  | x :: xs => insert_desc x (sorted_desc xs)

/-- The for loop of get_latest_bulletin over the sorted list: skip
    non-qualifying bulletins, return the first successfully processed
    one, and continue past processing failures. -/
def scan_bulletins (env : CycleEnv) (records : List RecordRow)
    (force_latest : Bool) (message : Option MsgCtx) :
    List BulletinListItem → Option (Chain × String)
  | [] => none
  | b :: rest =>
      if qualifies env.keywords records force_latest b then
        match process_bulletin env message b with
        | some r => some r
        | none => scan_bulletins env records force_latest message rest
      else scan_bulletins env records force_latest message rest

/-- Body of the list-stage try block (lines 154 to 164): the request may
    raise, a falsy or non-200 response returns None, parse_obj may raise;
    data.list is the validated item list. -/
def fetch_list_body (env : CycleEnv) : Except PyErr (Option (List BulletinListItem)) :=
  match env.listOutcome with
  | .raiseExc e => .error e
  | .noResp => .ok none
  | .resp status body =>
      if status ≠ 200 then .ok none
      else
        match body with
        | .error e => .error e
        | .ok items => .ok (some items)

/-- The list-stage try block with its handler: any exception is logged
    and the function returns None. -/
def fetch_list (env : CycleEnv) : Option (List BulletinListItem) :=
  pyTryOpt (fetch_list_body env)

/-- get_latest_bulletin of main.py: feature disabled when the configured
    keyword list is empty (falsy), then fetch and validate the list, then
    scan it in stable descending updated_at order. -/
def get_latest_bulletin (env : CycleEnv) (records : List RecordRow)
    (force_latest : Bool) (message : Option MsgCtx) : Option (Chain × String) :=
  if env.keywords.isEmpty then none
  else
    match fetch_list env with
    | none => none
    | some items => scan_bulletins env records force_latest message (sorted_desc items)

/-- One value of the push_groups.json dictionary. -/
structure PushGroupInfo where
  channel_id : String
  bot_id : String
  enabled : Bool
  added_time : Int
deriving DecidableEq, Repr

/-- The decoded push-group dictionary: an insertion-ordered map from the
    key channel_id ++ underscore ++ bot_id to its entry. -/
abbrev PushGroups := List (String × PushGroupInfo)

/-- The push_groups.json file on disk: whether it exists and what
    json.load would decode from it. -/
structure FileState where
  present : Bool
  content : PushGroups
deriving DecidableEq, Repr

/-- Evaluating json.load in main.py: the module never imports json, so
    the name lookup raises NameError before anything is decoded. -/
def json_load (content : PushGroups) : Except PyErr PushGroups :=
  .error .nameError

/-- Evaluating json.dump in main.py: same unbound name, NameError. -/
def json_dump (data : PushGroups) : Except PyErr Unit :=
  .error .nameError

/-- load_push_groups of main.py: if the file exists, try json.load with
    an except-all handler returning the empty dict; otherwise return the
    empty dict. -/
def load_push_groups (fs : FileState) : PushGroups :=
  if fs.present then
    match json_load fs.content with
    | .error _ => []
    | .ok d => d
  else []

/-- save_push_groups of main.py: open(..., w) creates or truncates the
    file, then json.dump runs; an exception is logged and False is
    returned (with the file left truncated). -/
def save_push_groups (fs : FileState) (data : PushGroups) : FileState × Bool :=
  match json_dump data with
  | .error _ => ({ present := true, content := [] }, false)
  | .ok _ => ({ present := true, content := data }, true)

/-- Python dict assignment d[k] = v on an insertion-ordered dict:
    replace in place when the key exists, append otherwise. -/
def dictSet (d : PushGroups) (k : String) (v : PushGroupInfo) : PushGroups :=
  if d.any (fun p => decide (p.1 = k)) then
    d.map (fun p => if p.1 = k then (k, v) else p)
  else d ++ [(k, v)]

/-- add_push_group of main.py: load, set the entry for the combined key
    with enabled True and the current time, save. -/
def add_push_group (fs : FileState) (channel_id bot_id : String) (now : Int) :
    FileState × Bool :=
  let data := load_push_groups fs
  let group_key := channel_id ++ "_" ++ bot_id
  let data' := dictSet data group_key
    { channel_id := channel_id, bot_id := bot_id, enabled := true, added_time := now }
  save_push_groups fs data'

/-- get_enabled_groups of main.py: the (channel_id, bot_id) pairs of the
    entries whose enabled flag is set. -/
def get_enabled_groups (fs : FileState) : List (String × String) :=
  (load_push_groups fs).filterMap
    (fun p => if p.2.enabled then some (p.2.channel_id, p.2.bot_id) else none)

/-- Reply strings of enable_push. -/
def msg_admin_only : String := "抱歉博士，只有管理员才能设置制作组通讯推送哦。"

/-- Reply when the group is already subscribed. -/
def msg_already_enabled : String := "博士，本群已经开启制作组通讯推送了，请勿重复操作。"

/-- Reply on a successful enable. -/
def msg_enable_ok : String := "指令确认，本群的制作组通讯推送功能已开启！"

/-- Reply when add_push_group reports failure. -/
def msg_enable_err : String := "开启推送功能时出现错误，请稍后重试。"

/-- enable_push of main.py: admins only; an already-enabled group gets a
    distinct reply and no write; otherwise add_push_group decides between
    the success and the error reply. -/
def enable_push (fs : FileState) (data : MsgCtx) (now : Int) : FileState × String :=
  if !data.is_admin then (fs, msg_admin_only)
  else
    if (get_enabled_groups fs).any
        (fun g => decide (g.1 = data.channel_id) && decide (g.2 = data.appid)) then
      (fs, msg_already_enabled)
    else
      match add_push_group fs data.channel_id data.appid now with
      | (fs', true) => (fs', msg_enable_ok)
      | (fs', false) => (fs', msg_enable_err)

/-- A message sent back to the issuer by manual_check. -/
inductive SentMsg where
  | text (s : String)
  | chainMsg (c : Chain)
deriving DecidableEq, Repr

/-- One enabled destination as consumed by execute_bulletin_push. -/
structure PushGroupRef where
  channel_id : String
  bot_id : String
deriving DecidableEq, Repr

/-- Observable events of one scheduled push cycle, in completion-barrier
    order: all sends of the cycle precede the DedupRecord creation. -/
inductive PushEvent where
  | send (g : PushGroupRef) (ok : Bool)
  | createRecord (cid : String) (t : Int)
deriving DecidableEq, Repr

/-- Mutable state owned by the plugin: the module-global
    last_check_timestamp and the BulletinRecord table rows in insertion
    order. -/
structure World where
  last_check_timestamp : Rat
  records : List RecordRow
deriving DecidableEq, Repr

/-- Environment of one execute_bulletin_push run: the cycle environment,
    the value returned by get_enabled_groups() at line 282 (kept general
    here; with the missing json import of main.py that call always
    returns the empty list, see get_enabled_groups_eq_nil), whether
    main_bot knows each bot_id, the outcome of each send task, and
    int(time.time()) at record creation. -/
structure PushEnv where
  cycle : CycleEnv
  target_groups : List PushGroupRef
  hasInstance : String → Bool
  sendOk : PushGroupRef → Bool
  now : Int

/-- BulletinRecord.create(cid=..., record_time=...): the uniqueness
    constraint on cid raises IntegrityError on a duplicate, otherwise the
    row is appended. -/
def db_create (records : List RecordRow) (cid : String) (t : Int) :
    Except PyErr (List RecordRow) :=
  if has_record records cid then .error .integrityError
  else .ok (records ++ [(cid, t)])

/-- await asyncio.wait(tasks): raises ValueError on an empty task set,
    otherwise waits for every task; task exceptions stay inside the task
    objects and are not re-raised. -/
def asyncio_wait (taskCount : Nat) : Except PyErr Unit :=
  if taskCount = 0 then .error .valueError else .ok ()

/-- execute_bulletin_push of main.py (lines 270 to 303): run a non-force
    cycle, stop if nothing was produced or the cid is already recorded;
    with no target groups record immediately; otherwise create one send
    task per group whose bot instance exists, await them all, then create
    the DedupRecord. -/
def execute_bulletin_push (env : PushEnv) (w : World) :
    Except PyErr (World × List PushEvent) :=
  match get_latest_bulletin env.cycle w.records false none with
  | none => .ok (w, [])
  | some (image_chain, bulletin_cid) =>
      if has_record w.records bulletin_cid then .ok (w, [])
      else
        let target_groups := env.target_groups
        if target_groups.isEmpty then
          match db_create w.records bulletin_cid env.now with
          | .error e => .error e
          | .ok rs =>
              .ok ({ w with records := rs }, [.createRecord bulletin_cid env.now])
        else
          let push_tasks := target_groups.filter (fun g => env.hasInstance g.bot_id)
          let events := push_tasks.map (fun g => PushEvent.send g (env.sendOk g))
          match (if push_tasks.isEmpty then Except.ok () else asyncio_wait push_tasks.length) with
          | .error e => .error e
          | .ok _ =>
              match db_create w.records bulletin_cid env.now with
              | .error e => .error e
              | .ok rs =>
                  .ok ({ w with records := rs },
                       events ++ [.createRecord bulletin_cid env.now])

/-- The exception-free course of execute_bulletin_push; proved equal to
    it in execute_bulletin_push_eq. -/
def execute_run (env : PushEnv) (w : World) : World × List PushEvent :=
  match get_latest_bulletin env.cycle w.records false none with
  | none => (w, [])
  | some (image_chain, bulletin_cid) =>
      if has_record w.records bulletin_cid then (w, [])
      else
        let push_tasks := env.target_groups.filter (fun g => env.hasInstance g.bot_id)
        let events :=
          if env.target_groups.isEmpty then []
          else push_tasks.map (fun g => PushEvent.send g (env.sendOk g))
        ({ w with records := w.records ++ [(bulletin_cid, env.now)] },
         events ++ [.createRecord bulletin_cid env.now])

/-- manual_check of main.py: reply with a progress text, run the cycle in
    force mode bound to the issuer message, then reply with the chain or
    the no-match text. No plugin state is touched. -/
def manual_check (env : CycleEnv) (w : World) (data : MsgCtx) : World × List SentMsg :=
  (w,
    SentMsg.text "正在检查最新的制作组通讯，请稍候..." ::
      (match get_latest_bulletin env w.records true (some data) with
       | some (image_chain, _) => [SentMsg.chainMsg image_chain]
       | none => [SentMsg.text "博士，目前没有找到符合条件的最新制作组通讯。"]))

/-- Environment of one scheduler tick: truthiness of the enablePush
    config, the raw checkInterval config (none when the key is absent, in
    which case get_config already yields the default 120), time.time()
    and the push environment for the cycle body. -/
structure TickEnv where
  enablePush : Bool
  checkIntervalCfg : Option ConfigVal
  current_time : Rat
  push : PushEnv

/-- Result of one tick: the state afterwards, whether a check cycle ran,
    and whether the invalid-interval warning was logged. -/
structure TickResult where
  world : World
  ran : Bool
  warned : Bool
deriving DecidableEq, Repr

/-- The interval the tick ends up using: int(...) of the configured
    value, or 120 when that raises. -/
def interval_used (env : TickEnv) : Int :=
  match py_int (env.checkIntervalCfg.getD (.vInt 120)) with
  | .ok n => n
  | .error _ => 120

/-- Whether the invalid-interval warning is logged this tick. -/
def interval_warned (env : TickEnv) : Bool :=
  match py_int (env.checkIntervalCfg.getD (.vInt 120)) with
  | .ok _ => false
  | .error _ => true

/-- timed_check_scheduler of main.py (lines 306 to 323): no-op when
    disabled; parse the interval under except (ValueError, TypeError)
    falling back to 120; when the elapsed time since last_check_timestamp
    reaches the interval, set last_check_timestamp to the current time
    and only then run execute_bulletin_push. -/
def timed_check_scheduler (env : TickEnv) (w : World) : Except PyErr TickResult :=
  if !env.enablePush then .ok ⟨w, false, false⟩
  else
    match catch_VT (py_int (env.checkIntervalCfg.getD (.vInt 120))) 120 with
    | .error e => .error e
    | .ok interval_seconds =>
        let warned := interval_warned env
        if env.current_time - w.last_check_timestamp ≥ (interval_seconds : Rat) then
          match execute_bulletin_push env.push
              { w with last_check_timestamp := env.current_time } with
          | .error e => .error e
          | .ok (w', _) => .ok ⟨w', true, warned⟩
        else .ok ⟨w, false, warned⟩

/-- The exception-free course of timed_check_scheduler; proved equal to
    it in timed_check_scheduler_eq. -/
def tick_run (env : TickEnv) (w : World) : TickResult :=
  if !env.enablePush then ⟨w, false, false⟩
  else if env.current_time - w.last_check_timestamp ≥ (interval_used env : Rat) then
    ⟨(execute_run env.push { w with last_check_timestamp := env.current_time }).1,
      true, interval_warned env⟩
  else ⟨w, false, interval_warned env⟩

/-- A sequence of scheduled push cycles, each with its own environment,
    threading the plugin state. -/
def run_push_cycles : List PushEnv → World → Except PyErr World
  | [], w => .ok w
  | env :: envs, w =>
      match execute_bulletin_push env w with
      | .error e => .error e
      | .ok (w', _) => run_push_cycles envs w'

/-- The cids of the recorded rows. -/
def cids (records : List RecordRow) : List String := records.map (fun r => r.1)

/-- isPrefixB decides list-prefix decomposition. -/
theorem isPrefixB_iff (n : List Char) : ∀ l : List Char,
    isPrefixB n l = true ↔ ∃ t, l = n ++ t := by
  induction n with
  | nil =>
      intro l
      simp [isPrefixB]
  | cons c cs ih =>
      intro l
      cases l with
      | nil =>
          simp [isPrefixB]
      | cons d ds =>
          simp only [isPrefixB, Bool.and_eq_true, decide_eq_true_eq, ih ds,
            List.cons_append, List.cons.injEq]
          constructor
          · rintro ⟨h1, t, h2⟩
            exact ⟨t, h1.symm, h2⟩
          · rintro ⟨t, h1, h2⟩
            exact ⟨h1.symm, t, h2⟩

/-- isInfixB decides contiguous-substring decomposition. -/
theorem isInfixB_iff (n : List Char) : ∀ l : List Char,
    isInfixB n l = true ↔ ∃ s t, l = s ++ n ++ t := by
  intro l
  induction l with
  | nil =>
      simp only [isInfixB, List.isEmpty_iff]
      constructor
      · rintro rfl
        exact ⟨[], [], rfl⟩
      · rintro ⟨s, t, h⟩
        rcases List.append_eq_nil.mp h.symm with ⟨h1, h2⟩
        exact (List.append_eq_nil.mp h1).2
  | cons c rest ih =>
      simp only [isInfixB, Bool.or_eq_true, isPrefixB_iff, ih]
      constructor
      · rintro (⟨t, h⟩ | ⟨s, t, h⟩)
        · exact ⟨[], t, by simp [h]⟩
        · exact ⟨c :: s, t, by simp [h]⟩
      · rintro ⟨s, t, h⟩
        cases s with
        | nil =>
            left
            exact ⟨t, by simpa using h⟩
        | cons c' s' =>
            right
            rcases List.cons.injEq .. ▸ h with ⟨rfl, h2⟩
            exact ⟨s', t, h2⟩

/-- py_in is exactly substring containment of the underlying character
    lists. -/
theorem py_in_iff (needle hay : String) :
    py_in needle hay = true ↔ ∃ s t, hay.toList = s ++ needle.toList ++ t := by
  simpa [py_in] using isInfixB_iff needle.toList hay.toList

/-- Membership in a descending insertion. -/
theorem insert_desc_mem (x z : BulletinListItem) : ∀ l : List BulletinListItem,
    z ∈ insert_desc x l ↔ z = x ∨ z ∈ l := by
  intro l
  induction l with
  | nil => simp [insert_desc]
  | cons y ys ih =>
      by_cases h : y.updated_at ≤ x.updated_at
      · simp [insert_desc, h]
      · simp only [insert_desc, if_neg h, List.mem_cons, ih]
        tauto

/-- Descending insertion is a permutation of consing. -/
theorem insert_desc_perm (x : BulletinListItem) : ∀ l : List BulletinListItem,
    List.Perm (insert_desc x l) (x :: l) := by
  intro l
  induction l with
  | nil => simp [insert_desc]
  | cons y ys ih =>
      by_cases h : y.updated_at ≤ x.updated_at
      · simp [insert_desc, h]
      · simp only [insert_desc, if_neg h]
        exact (ih.cons y).trans (List.Perm.swap x y ys)

/-- sorted_desc permutes its input. -/
theorem sorted_desc_perm : ∀ l : List BulletinListItem,
    List.Perm (sorted_desc l) l := by
  intro l
  induction l with
  | nil => simp [sorted_desc]
  | cons x xs ih =>
      exact (insert_desc_perm x (sorted_desc xs)).trans (ih.cons x)

/-- Descending insertion preserves descending pairwise order. -/
theorem insert_desc_pairwise (x : BulletinListItem) :
    ∀ l : List BulletinListItem,
    List.Pairwise (fun a b => b.updated_at ≤ a.updated_at) l →
    List.Pairwise (fun a b => b.updated_at ≤ a.updated_at) (insert_desc x l) := by
  intro l
  induction l with
  | nil => simp [insert_desc]
  | cons y ys ih =>
      intro h
      rcases List.pairwise_cons.mp h with ⟨hy, hys⟩
      by_cases hle : y.updated_at ≤ x.updated_at
      · simp only [insert_desc, if_pos hle]
        refine List.pairwise_cons.mpr ⟨?_, h⟩
        intro z hz
        rcases List.mem_cons.mp hz with rfl | hz'
        · exact hle
        · exact le_trans (hy z hz') hle
      · simp only [insert_desc, if_neg hle]
        refine List.pairwise_cons.mpr ⟨?_, ih hys⟩
        intro z hz
        rcases (insert_desc_mem x z ys).mp hz with rfl | hz'
        · exact le_of_lt (lt_of_not_le hle)
        · exact hy z hz'

/-- sorted_desc is descending in updated_at. -/
theorem sorted_desc_pairwise : ∀ l : List BulletinListItem,
    List.Pairwise (fun a b => b.updated_at ≤ a.updated_at) (sorted_desc l) := by
  intro l
  induction l with
  | nil => simp [sorted_desc]
  | cons x xs ih => exact insert_desc_pairwise x (sorted_desc xs) ih

/-- Inserting never reorders the elements of any fixed key class: the
    walked-over elements are strictly greater, so an inserted element
    lands before every element sharing its key. -/
theorem filter_insert_desc (k : Int) (x : BulletinListItem) :
    ∀ l : List BulletinListItem,
    (insert_desc x l).filter (fun b => decide (b.updated_at = k)) =
      (if x.updated_at = k then [x] else []) ++
        l.filter (fun b => decide (b.updated_at = k)) := by
  intro l
  induction l with
  | nil =>
      by_cases h : x.updated_at = k <;> simp [insert_desc, List.filter, h]
  | cons y ys ih =>
      by_cases hle : y.updated_at ≤ x.updated_at
      · simp only [insert_desc, if_pos hle]
        by_cases hx : x.updated_at = k <;> by_cases hy : y.updated_at = k <;>
          simp [List.filter, hx, hy]
      · simp only [insert_desc, if_neg hle]
        have hlt : x.updated_at < y.updated_at := lt_of_not_le hle
        by_cases hy : y.updated_at = k
        · have hx : x.updated_at ≠ k := ne_of_lt (hy ▸ hlt)
          simp [List.filter, hy, hx, ih]
        · by_cases hx : x.updated_at = k <;> simp [List.filter, hy, hx, ih]

/-- Stability of sorted_desc: within each updated_at key class, the
    original feed order is preserved. -/
theorem sorted_desc_stable (k : Int) : ∀ l : List BulletinListItem,
    (sorted_desc l).filter (fun b => decide (b.updated_at = k)) =
      l.filter (fun b => decide (b.updated_at = k)) := by
  intro l
  induction l with
  | nil => simp [sorted_desc]
  | cons x xs ih =>
      by_cases hx : x.updated_at = k <;>
        simp [sorted_desc, filter_insert_desc, hx, List.filter, ih]

/-- The loop of get_latest_bulletin returns exactly the processed output
    of the first bulletin that both qualifies and processes successfully;
    qualifying bulletins whose processing fails are skipped. -/
theorem scan_eq_find (env : CycleEnv) (records : List RecordRow)
    (force_latest : Bool) (message : Option MsgCtx) :
    ∀ l : List BulletinListItem,
    scan_bulletins env records force_latest message l =
      (l.find? (fun b => qualifies env.keywords records force_latest b &&
          (process_bulletin env message b).isSome)).bind
        (process_bulletin env message) := by
  intro l
  induction l with
  | nil => rfl
  | cons b rest ih =>
      cases hq : qualifies env.keywords records force_latest b
      · simp [scan_bulletins, hq, List.find?_cons, ih]
      · cases hp : process_bulletin env message b with
        | none => simp [scan_bulletins, hq, List.find?_cons, hp, ih]
        | some r => simp [scan_bulletins, hq, List.find?_cons, hp]

/-- Qualification in force mode ignores the record table: it equals
    qualification against the empty table without force. -/
theorem qualifies_force (keywords : List String) (records : List RecordRow)
    (b : BulletinListItem) :
    qualifies keywords records true b = qualifies keywords [] false b := by
  simp [qualifies, has_record]

/-- The loop in force mode behaves as the loop over an empty record
    table. -/
theorem scan_force (env : CycleEnv) (records : List RecordRow)
    (message : Option MsgCtx) :
    ∀ l : List BulletinListItem,
    scan_bulletins env records true message l =
      scan_bulletins env [] false message l := by
  intro l
  induction l with
  | nil => rfl
  | cons b rest ih =>
      simp only [scan_bulletins, qualifies_force, ih]

/-- get_latest_bulletin in force mode behaves as a run against an empty
    record table: the DedupStore is bypassed entirely. -/
theorem get_latest_bulletin_force (env : CycleEnv) (records : List RecordRow)
    (message : Option MsgCtx) :
    get_latest_bulletin env records true message =
      get_latest_bulletin env [] false message := by
  unfold get_latest_bulletin
  cases fetch_list env <;> simp [scan_force]

/-- py_int only ever raises ValueError or TypeError. -/
theorem py_int_err (v : ConfigVal) (e : PyErr) :
    py_int v = .error e → e = .valueError ∨ e = .typeError := by
  cases v with
  | vInt n => simp [py_int]
  | vBool b => simp [py_int]
  | vFloat q => simp [py_int]
  | vStr s =>
      cases h : py_int_of_string s with
      | some n => simp [py_int, h]
      | none =>
          intro he
          simp only [py_int, h, Except.error.injEq] at he
          exact Or.inl he.symm
  | vNone =>
      intro he
      simp only [py_int, Except.error.injEq] at he
      exact Or.inr he.symm
  | vList =>
      intro he
      simp only [py_int, Except.error.injEq] at he
      exact Or.inr he.symm

/-- The guards of execute_bulletin_push make its two unguarded raising
    operations unreachable: the sequential Except embedding always
    returns ok, with the value computed by execute_run. -/
theorem execute_bulletin_push_eq (env : PushEnv) (w : World) :
    execute_bulletin_push env w = .ok (execute_run env w) := by
  unfold execute_bulletin_push execute_run
  cases hsel : get_latest_bulletin env.cycle w.records false none with
  | none => rfl
  | some r =>
      obtain ⟨chain, cid⟩ := r
      cases hr : has_record w.records cid with
      | true => simp [hr]
      | false =>
          simp only [hr, Bool.false_eq_true, if_false, db_create]
          cases htg : env.target_groups.isEmpty with
          | true => simp [htg]
          | false =>
              simp only [htg, Bool.false_eq_true, if_false]
              cases hpt : (env.target_groups.filter (fun g => env.hasInstance g.bot_id)).isEmpty with
              | true => simp [hpt]
              | false =>
                  have hlen : (env.target_groups.filter (fun g => env.hasInstance g.bot_id)).length ≠ 0 := by
                    cases hl : env.target_groups.filter (fun g => env.hasInstance g.bot_id) with
                    | nil => rw [hl] at hpt; simp at hpt
                    | cons a as => simp [hl]
                  simp [hpt, asyncio_wait, hlen]

/-- A push cycle never touches last_check_timestamp. -/
theorem execute_run_last (env : PushEnv) (w : World) :
    (execute_run env w).1.last_check_timestamp = w.last_check_timestamp := by
  unfold execute_run
  cases get_latest_bulletin env.cycle w.records false none with
  | none => rfl
  | some r =>
      obtain ⟨chain, cid⟩ := r
      cases hr : has_record w.records cid <;> simp [hr]

/-- A push cycle either leaves the record rows alone or appends exactly
    one row whose cid was not yet recorded. -/
theorem execute_run_records (env : PushEnv) (w : World) :
    (execute_run env w).1.records = w.records ∨
      ∃ cid, has_record w.records cid = false ∧
        (execute_run env w).1.records = w.records ++ [(cid, env.now)] := by
  unfold execute_run
  cases get_latest_bulletin env.cycle w.records false none with
  | none => exact Or.inl rfl
  | some r =>
      obtain ⟨chain, cid⟩ := r
      cases hr : has_record w.records cid with
      | true => exact Or.inl (by simp [hr])
      | false => exact Or.inr ⟨cid, hr, by simp [hr]⟩

/-- The scheduler tick never lets an exception escape: it always returns
    ok, with the value computed by tick_run. -/
theorem timed_check_scheduler_eq (env : TickEnv) (w : World) :
    timed_check_scheduler env w = .ok (tick_run env w) := by
  unfold timed_check_scheduler tick_run
  cases he : env.enablePush with
  | false => rfl
  | true =>
      simp only [he, Bool.not_true, Bool.false_eq_true, if_false]
      cases hconv : py_int (env.checkIntervalCfg.getD (.vInt 120)) with
      | ok n =>
          simp only [catch_VT, interval_used, interval_warned, hconv]
          by_cases hge : env.current_time - w.last_check_timestamp ≥ (n : Rat)
          · simp only [if_pos hge, execute_bulletin_push_eq]
          · simp only [if_neg hge]
      | error e =>
          rcases py_int_err _ _ hconv with rfl | rfl <;>
          · simp only [catch_VT, interval_used, interval_warned, hconv]
            by_cases hge : env.current_time - w.last_check_timestamp ≥ ((120 : Int) : Rat)
            · simp only [if_pos hge, execute_bulletin_push_eq]
            · simp only [if_neg hge]

/-- has_record is membership of the cid among the recorded cids. -/
theorem has_record_false_iff (records : List RecordRow) (c : String) :
    has_record records c = false ↔ c ∉ cids records := by
  rw [← Bool.not_eq_true, has_record, cids]
  simp only [List.any_eq_true, decide_eq_true_eq, List.mem_map]

/-- With the missing json import, get_enabled_groups can only ever see
    the empty dictionary: json.load raises NameError and the handler of
    load_push_groups returns the empty dict. -/
theorem get_enabled_groups_eq_nil (fs : FileState) : get_enabled_groups fs = [] := by
  simp [get_enabled_groups, load_push_groups, json_load, ite_self]

/-- When the list endpoint returns a parsed payload, the cycle output is
    the processed artifact of the first bulletin, in stable descending
    updated_at order, that qualifies and processes successfully. -/
theorem get_latest_bulletin_eq_find (env : CycleEnv) (records : List RecordRow)
    (force_latest : Bool) (message : Option MsgCtx) (items : List BulletinListItem)
    (hlist : env.listOutcome = .resp 200 (.ok items)) :
    get_latest_bulletin env records force_latest message =
      ((sorted_desc items).find? (fun b =>
          qualifies env.keywords records force_latest b &&
            (process_bulletin env message b).isSome)).bind
        (process_bulletin env message) := by
  have hfetch : fetch_list env = some items := by
    simp [fetch_list, fetch_list_body, hlist, pyTryOpt]
  unfold get_latest_bulletin
  rw [hfetch]
  cases hke : env.keywords.isEmpty with
  | true =>
      have hk : env.keywords = [] := List.isEmpty_iff.mp hke
      have hfind : (sorted_desc items).find? (fun b =>
          qualifies env.keywords records force_latest b &&
            (process_bulletin env message b).isSome) = none :=
        List.find?_eq_none.mpr (fun x hx => by simp [qualifies, hk])
      rw [hfind]
      rfl
  | false =>
      simp only [hke, Bool.false_eq_true, if_false]
      exact scan_eq_find env records force_latest message (sorted_desc items)

/-- A bulletin whose processing fails is skipped: the loop continues
    with the rest of the sorted list. -/
theorem scan_skip (env : CycleEnv) (records : List RecordRow)
    (force_latest : Bool) (message : Option MsgCtx) (b : BulletinListItem)
    (rest : List BulletinListItem)
    (hp : process_bulletin env message b = none) :
    scan_bulletins env records force_latest message (b :: rest) =
      scan_bulletins env records force_latest message rest := by
  cases hq : qualifies env.keywords records force_latest b <;>
    simp [scan_bulletins, hq, hp]

/-- Claim C1: in a scheduled push cycle that selected an item whose cid
    is not yet recorded, the DedupRecord is created only after all
    per-destination sends have completed (the createRecord event comes
    after one send event per dispatched destination), it is created for
    arbitrary per-send outcomes (sendOk is unconstrained), and it is also
    created when the set of enabled destinations is empty. -/
theorem c1_claim_after_dispatch (env : PushEnv) (w : World) (chain : Chain)
    (cid : String)
    (hsel : get_latest_bulletin env.cycle w.records false none = some (chain, cid))
    (hnew : has_record w.records cid = false) :
    execute_bulletin_push env w =
      .ok ({ w with records := w.records ++ [(cid, env.now)] },
        (env.target_groups.filter (fun g => env.hasInstance g.bot_id)).map
          (fun g => PushEvent.send g (env.sendOk g)) ++
          [PushEvent.createRecord cid env.now]) ∧
    (env.target_groups = [] →
      execute_bulletin_push env w =
        .ok ({ w with records := w.records ++ [(cid, env.now)] },
          [PushEvent.createRecord cid env.now])) := by
  have h1 : execute_bulletin_push env w =
      .ok ({ w with records := w.records ++ [(cid, env.now)] },
        (env.target_groups.filter (fun g => env.hasInstance g.bot_id)).map
          (fun g => PushEvent.send g (env.sendOk g)) ++
          [PushEvent.createRecord cid env.now]) := by
    rw [execute_bulletin_push_eq]
    unfold execute_run
    rw [hsel]
    cases htg : env.target_groups with
    | nil => simp [hnew]
    | cons g gs => simp [hnew]
  refine ⟨h1, fun hempty => ?_⟩
  rw [h1, hempty]
  simp

/-- First push-cycle witness environment: one qualifying fresh bulletin,
    three destinations of which the second send fails. -/
def c1_item : BulletinListItem :=
  { cid := "cid1", title := "制作组通讯一", category := 1,
    display_time := "", updated_at := 300 }

/-- Detail payload of the witness bulletin. -/
def c1_detail : BulletinData :=
  { cid := "cid1", title := "通讯一", content := "正文",
    banner_image_url := "", updated_at := 300 }

/-- Witness cycle environment with all stages succeeding (the banner
    download raises and degrades to an empty banner). -/
def c1_cycle : CycleEnv :=
  { keywords := ["通讯"]
    curr_dir := ""
    listOutcome := .resp 200 (.ok [c1_item])
    detailOutcome := fun _ => .resp 200 (.ok c1_detail)
    bannerOutcome := fun _ => .raiseExc (.generic "aiohttp")
    htmlRender := fun _ _ => .ok ()
    fmtTime := fun _ => "2025-10-12 08:00:00" }

/-- Witness destination one. -/
def c1_g1 : PushGroupRef := { channel_id := "ch1", bot_id := "bot1" }

/-- Witness destination two; its send fails. -/
def c1_g2 : PushGroupRef := { channel_id := "ch2", bot_id := "bot1" }

/-- Witness destination three. -/
def c1_g3 : PushGroupRef := { channel_id := "ch3", bot_id := "bot1" }

/-- Witness push environment: the send to destination two fails. -/
def c1_env : PushEnv :=
  { cycle := c1_cycle
    target_groups := [c1_g1, c1_g2, c1_g3]
    hasInstance := fun _ => true
    sendOk := fun g => decide (g.channel_id ≠ "ch2")
    now := 777 }

/-- The chain the witness cycle produces. -/
def c1_chain : Chain :=
  { from_message := false
    template := "/template/bulletin.html"
    data := { title := "通讯一", banner_url := "", content := "正文",
              publish_time := "2025-10-12 08:00:00" }
    width := 800
    height := 1 }

/-- Witness for C1: with one failing destination out of three, all three
    sends are dispatched and the DedupRecord is still created, last. -/
theorem c1_witness :
    execute_bulletin_push c1_env { last_check_timestamp := 0, records := [] } =
      .ok ({ last_check_timestamp := 0, records := [("cid1", 777)] },
        [PushEvent.send c1_g1 true, PushEvent.send c1_g2 false,
         PushEvent.send c1_g3 true, PushEvent.createRecord "cid1" 777]) := by
  have h := (c1_claim_after_dispatch c1_env
    { last_check_timestamp := 0, records := [] } c1_chain "cid1" rfl rfl).1
  exact h

/-- Claim C2: the selection characterization, the order properties of
    the scan (descending, a permutation of the feed, stable on ties),
    the qualification criterion (case-sensitive substring containment of
    some keyword plus, without force mode, no existing DedupRecord), and
    the none results for an empty keyword list and for a list without
    qualifying items. -/
theorem c2_selection (env : CycleEnv) (records : List RecordRow)
    (message : Option MsgCtx) (items : List BulletinListItem) :
    (env.keywords = [] → ∀ force_latest,
      get_latest_bulletin env records force_latest message = none) ∧
    (env.listOutcome = .resp 200 (.ok items) → ∀ force_latest,
      get_latest_bulletin env records force_latest message =
        ((sorted_desc items).find? (fun b =>
            qualifies env.keywords records force_latest b &&
              (process_bulletin env message b).isSome)).bind
          (process_bulletin env message)) ∧
    List.Pairwise (fun a b => b.updated_at ≤ a.updated_at) (sorted_desc items) ∧
    List.Perm (sorted_desc items) items ∧
    (∀ k : Int, (sorted_desc items).filter (fun b => decide (b.updated_at = k)) =
        items.filter (fun b => decide (b.updated_at = k))) ∧
    (∀ b force_latest, qualifies env.keywords records force_latest b = true ↔
        ((∃ kw ∈ env.keywords, ∃ s t, b.title.toList = s ++ kw.toList ++ t) ∧
         (force_latest = false → has_record records b.cid = false))) ∧
    ((∀ b ∈ items, env.keywords.any (fun k => py_in k b.title) = false) →
      env.listOutcome = .resp 200 (.ok items) → ∀ force_latest,
        get_latest_bulletin env records force_latest message = none) := by
  refine ⟨?_, ?_, sorted_desc_pairwise items, sorted_desc_perm items,
    fun k => sorted_desc_stable k items, ?_, ?_⟩
  · intro hk force_latest
    simp [get_latest_bulletin, hk]
  · intro hlist force_latest
    exact get_latest_bulletin_eq_find env records force_latest message items hlist
  · intro b force_latest
    cases force_latest <;>
      simp [qualifies, List.any_eq_true, py_in_iff]
  · intro hnone hlist force_latest
    rw [get_latest_bulletin_eq_find env records force_latest message items hlist]
    have hfind : (sorted_desc items).find? (fun b =>
        qualifies env.keywords records force_latest b &&
          (process_bulletin env message b).isSome) = none := by
      refine List.find?_eq_none.mpr (fun x hx => ?_)
      have hxmem : x ∈ items := (sorted_desc_perm items).mem_iff.mp hx
      simp [qualifies, hnone x hxmem]
    rw [hfind]
    rfl

/-- Witness for C2: on the concrete witness environment the cycle output
    is the find-and-process of the sorted list, and it selects the single
    qualifying bulletin. -/
theorem c2_witness :
    get_latest_bulletin c1_cycle [] false none =
      ((sorted_desc [c1_item]).find? (fun b =>
          qualifies c1_cycle.keywords [] false b &&
            (process_bulletin c1_cycle none b).isSome)).bind
        (process_bulletin c1_cycle none) ∧
    get_latest_bulletin c1_cycle [] false none = some (c1_chain, "cid1") := by
  exact ⟨(c2_selection c1_cycle [] none [c1_item]).2.1 rfl false, rfl⟩

/-- First bulletin of the C3 counterexample: fresher, qualifying, but
    its detail fetch fails (falsy response). -/
def c3_itemA : BulletinListItem :=
  { cid := "ca", title := "制作组通讯A", category := 1,
    display_time := "", updated_at := 200 }

/-- Second bulletin of the C3 counterexample: older, qualifying, fully
    processable. -/
def c3_itemB : BulletinListItem :=
  { cid := "cb", title := "制作组通讯B", category := 1,
    display_time := "", updated_at := 100 }

/-- Detail payload of the second bulletin. -/
def c3_detailB : BulletinData :=
  { cid := "cb", title := "通讯B详情", content := "正文B",
    banner_image_url := "", updated_at := 100 }

/-- C3 counterexample environment: the detail fetch of the first
    qualifying bulletin fails, the second succeeds. -/
def c3_env : CycleEnv :=
  { keywords := ["通讯"]
    curr_dir := ""
    listOutcome := .resp 200 (.ok [c3_itemA, c3_itemB])
    detailOutcome := fun c => if c = "ca" then .noResp else .resp 200 (.ok c3_detailB)
    bannerOutcome := fun _ => .raiseExc (.generic "aiohttp")
    htmlRender := fun _ _ => .ok ()
    fmtTime := fun _ => "2025-10-12 00:00:00" }

/-- Claim C3 is false on the code: in c3_env the first qualifying
    bulletin in sorted order is c3_itemA, its detail fetch fails, and yet
    the cycle still produces an artifact, namely the one of the
    later-qualifying c3_itemB (the loop body ends each failure path with
    continue, falling through to the next qualifying bulletin, instead of
    aborting the cycle). -/
theorem c3_counterexample :
    (sorted_desc [c3_itemA, c3_itemB]).find?
        (fun b => qualifies c3_env.keywords [] false b) = some c3_itemA ∧
    c3_env.detailOutcome c3_itemA.cid = .noResp ∧
    process_bulletin c3_env none c3_itemA = none ∧
    get_latest_bulletin c3_env [] false none =
      some ({ from_message := false
              template := "/template/bulletin.html"
              data := { title := "通讯B详情", banner_url := "",
                        content := "正文B",
                        publish_time := "2025-10-12 00:00:00" }
              width := 800
              height := 1 }, "cb") := by
  exact ⟨rfl, rfl, rfl, rfl⟩

/-- Claim C3 amended: the cycle produces at most one artifact, the one
    of the first bulletin in stable descending order that qualifies and
    whose detail fetch and rendering succeed; a qualifying bulletin whose
    processing fails is skipped and scanning continues with the later
    bulletins of the same cycle. -/
theorem c3_amended (env : CycleEnv) (records : List RecordRow)
    (force_latest : Bool) (message : Option MsgCtx)
    (items : List BulletinListItem) (b : BulletinListItem)
    (rest : List BulletinListItem)
    (hlist : env.listOutcome = .resp 200 (.ok items))
    (hp : process_bulletin env message b = none) :
    get_latest_bulletin env records force_latest message =
      ((sorted_desc items).find? (fun x =>
          qualifies env.keywords records force_latest x &&
            (process_bulletin env message x).isSome)).bind
        (process_bulletin env message) ∧
    scan_bulletins env records force_latest message (b :: rest) =
      scan_bulletins env records force_latest message rest := by
  exact ⟨get_latest_bulletin_eq_find env records force_latest message items hlist,
    scan_skip env records force_latest message b rest hp⟩

/-- Witness for the amended C3 on the counterexample environment: the
    failing first bulletin is skipped and the characterization holds. -/
theorem c3_amended_witness :
    get_latest_bulletin c3_env [] false none =
      ((sorted_desc [c3_itemA, c3_itemB]).find? (fun x =>
          qualifies c3_env.keywords [] false x &&
            (process_bulletin c3_env none x).isSome)).bind
        (process_bulletin c3_env none) ∧
    scan_bulletins c3_env [] false none (c3_itemA :: [c3_itemB]) =
      scan_bulletins c3_env [] false none [c3_itemB] :=
  c3_amended c3_env [] false none [c3_itemA, c3_itemB] c3_itemA [c3_itemB] rfl rfl

/-- Claim C4: the tick never raises (it always computes tick_run); a
    disabled configuration makes the tick a no-op; a check cycle runs
    exactly when push is enabled and the elapsed time since
    last_check_timestamp reaches the interval in use; when it runs,
    last_check_timestamp is set to the current time before the cycle (the
    cycle receives the already-updated state, and the resulting timestamp
    is the tick time even though the cycle ran); when it does not run the
    state is unchanged. -/
theorem c4_scheduler (env : TickEnv) (w : World) :
    timed_check_scheduler env w = .ok (tick_run env w) ∧
    (env.enablePush = false → tick_run env w = ⟨w, false, false⟩) ∧
    (tick_run env w).ran =
      (env.enablePush &&
        decide (env.current_time - w.last_check_timestamp ≥ (interval_used env : Rat))) ∧
    (env.enablePush = true →
      env.current_time - w.last_check_timestamp ≥ (interval_used env : Rat) →
      tick_run env w =
        ⟨(execute_run env.push { w with last_check_timestamp := env.current_time }).1,
          true, interval_warned env⟩ ∧
      (tick_run env w).world.last_check_timestamp = env.current_time) ∧
    ((tick_run env w).ran = false → (tick_run env w).world = w) := by
  refine ⟨timed_check_scheduler_eq env w, ?_, ?_, ?_, ?_⟩
  · intro he
    simp [tick_run, he]
  · cases he : env.enablePush with
    | false => simp [tick_run, he]
    | true =>
        by_cases hge : env.current_time - w.last_check_timestamp ≥ (interval_used env : Rat) <;>
          simp [tick_run, he, hge]
  · intro he hge
    constructor
    · simp [tick_run, he, hge]
    · simp only [tick_run, he, Bool.not_true, Bool.false_eq_true, if_false, if_pos hge]
      rw [execute_run_last]
  · intro hran
    cases he : env.enablePush with
    | false => simp [tick_run, he]
    | true =>
        by_cases hge : env.current_time - w.last_check_timestamp ≥ (interval_used env : Rat)
        · rw [tick_run] at hran
          simp [he, hge] at hran
        · simp [tick_run, he, hge]

/-- Quiet cycle environment for the scheduler witnesses: the list fetch
    yields no response, so the cycle selects nothing. -/
def quiet_cycle : CycleEnv :=
  { keywords := ["通讯"]
    curr_dir := ""
    listOutcome := .noResp
    detailOutcome := fun _ => .noResp
    bannerOutcome := fun _ => .raiseExc (.generic "aiohttp")
    htmlRender := fun _ _ => .ok ()
    fmtTime := fun _ => "" }

/-- Quiet push environment for the scheduler witnesses. -/
def quiet_push : PushEnv :=
  { cycle := quiet_cycle
    target_groups := []
    hasInstance := fun _ => false
    sendOk := fun _ => true
    now := 0 }

/-- C4 witness tick environment: enabled, no interval configured (the
    get_config default 120 applies), tick at time 200 with last check at
    time 0. -/
def c4_env : TickEnv :=
  { enablePush := true
    checkIntervalCfg := none
    current_time := 200
    push := quiet_push }

/-- Witness for C4: at elapsed 200 and interval 120 the check runs and
    the timestamp becomes the tick time. -/
theorem c4_witness :
    tick_run c4_env { last_check_timestamp := 0, records := [] } =
      ⟨(execute_run c4_env.push
          { last_check_timestamp := 200, records := [] }).1,
        true, interval_warned c4_env⟩ ∧
    (tick_run c4_env { last_check_timestamp := 0, records := [] }).world.last_check_timestamp = 200 := by
  have hge : c4_env.current_time -
      (World.mk 0 []).last_check_timestamp ≥ ((interval_used c4_env : Int) : Rat) := by
    show (200 : Rat) - 0 ≥ ((120 : Int) : Rat)
    norm_num
  have h := (c4_scheduler c4_env { last_check_timestamp := 0, records := [] }).2.2.2.1 rfl hge
  exact ⟨h.1, h.2⟩

/-- A run of scheduled cycles always succeeds and only ever appends
    record rows, at most one per cycle, each with a previously unrecorded
    cid; distinctness of the recorded cids is preserved. -/
theorem run_push_cycles_ok : ∀ (envs : List PushEnv) (w : World),
    ∃ w', run_push_cycles envs w = .ok w' ∧
      ∃ new, w'.records = w.records ++ new ∧ new.length ≤ envs.length ∧
        ((cids w.records).Nodup → (cids w'.records).Nodup) := by
  intro envs
  induction envs with
  | nil =>
      intro w
      exact ⟨w, rfl, [], by simp⟩
  | cons env envs ih =>
      intro w
      obtain ⟨w', hrun, new, hw', hlen, hnd⟩ := ih (execute_run env w).1
      refine ⟨w', ?_, ?_⟩
      · simp [run_push_cycles, execute_bulletin_push_eq, hrun]
      · rcases execute_run_records env w with hsame | ⟨cid, hcid, happ⟩
        · refine ⟨new, by rw [hw', hsame], le_trans hlen (by simp), ?_⟩
          intro h
          exact hnd (by rw [hsame]; exact h)
        · refine ⟨(cid, env.now) :: new, ?_, ?_, ?_⟩
          · rw [hw', happ]
            simp
          · simpa using Nat.succ_le_succ hlen
          · intro h
            apply hnd
            rw [happ]
            have hmap : cids (w.records ++ [(cid, env.now)]) =
                cids w.records ++ [cid] := by simp [cids]
            rw [hmap, List.nodup_append]
            refine ⟨h, by simp, ?_⟩
            intro a ha hb
            rw [List.mem_singleton] at hb
            subst hb
            exact (has_record_false_iff _ _).mp hcid ha

/-- Claim C5: the dedup ledger holds at most one record per cid across
    any number of scheduled cycles: starting from distinct recorded cids,
    every run keeps the old rows untouched (append-only, never updated or
    deleted), creates at most one row per cycle, and the cids stay
    distinct. -/
theorem c5_dedup_ledger (envs : List PushEnv) (w : World)
    (h : (cids w.records).Nodup) :
    ∃ w', run_push_cycles envs w = .ok w' ∧
      (∃ new, w'.records = w.records ++ new ∧ new.length ≤ envs.length) ∧
      (cids w'.records).Nodup := by
  obtain ⟨w', hrun, new, hw', hlen, hnd⟩ := run_push_cycles_ok envs w
  exact ⟨w', hrun, ⟨new, hw', hlen⟩, hnd h⟩

/-- Witness for C5: two cycles over the same static feed starting from
    an empty ledger. -/
theorem c5_witness :
    ∃ w', run_push_cycles [c1_env, c1_env]
        { last_check_timestamp := 0, records := [] } = .ok w' ∧
      (∃ new, w'.records =
          (World.mk 0 []).records ++ new ∧ new.length ≤ [c1_env, c1_env].length) ∧
      (cids w'.records).Nodup :=
  c5_dedup_ledger [c1_env, c1_env] { last_check_timestamp := 0, records := [] }
    (by simp [cids])

/-- Claim C6: force mode bypasses dedup filtering: a run in force mode
    coincides with a run against an empty record table, qualification in
    force mode ignores the records entirely, and without force mode a
    recorded bulletin never qualifies. -/
theorem c6_force_mode (env : CycleEnv) (records : List RecordRow)
    (message : Option MsgCtx) (keywords : List String) (b : BulletinListItem) :
    get_latest_bulletin env records true message =
      get_latest_bulletin env [] false message ∧
    qualifies keywords records true b = qualifies keywords [] false b ∧
    (has_record records b.cid = true → qualifies keywords records false b = false) := by
  refine ⟨get_latest_bulletin_force env records message,
    qualifies_force keywords records b, ?_⟩
  intro h
  simp [qualifies, h]

/-- Witness bulletin for C6, already recorded. -/
def c6_item : BulletinListItem :=
  { cid := "c6", title := "制作组通讯六", category := 1,
    display_time := "", updated_at := 50 }

/-- Witness environment for C6. -/
def c6_env : CycleEnv :=
  { keywords := ["通讯"]
    curr_dir := ""
    listOutcome := .resp 200 (.ok [c6_item])
    detailOutcome := fun _ => .resp 200 (.ok
      { cid := "c6", title := "通讯六", content := "正文",
        banner_image_url := "", updated_at := 50 })
    bannerOutcome := fun _ => .raiseExc (.generic "aiohttp")
    htmlRender := fun _ _ => .ok ()
    fmtTime := fun _ => "t" }

/-- Witness for C6: with the single qualifying bulletin already
    recorded, force mode still returns it while the scheduled mode skips
    it and yields none. -/
theorem c6_witness :
    get_latest_bulletin c6_env [("c6", 1)] true none =
      get_latest_bulletin c6_env [] false none ∧
    qualifies ["通讯"] [("c6", 1)] false c6_item = false ∧
    get_latest_bulletin c6_env [("c6", 1)] true none =
      some ({ from_message := false
              template := "/template/bulletin.html"
              data := { title := "通讯六", banner_url := "", content := "正文",
                        publish_time := "t" }
              width := 800
              height := 1 }, "c6") ∧
    get_latest_bulletin c6_env [("c6", 1)] false none = none := by
  refine ⟨(c6_force_mode c6_env [("c6", 1)] none ["通讯"] c6_item).1,
    (c6_force_mode c6_env [("c6", 1)] none ["通讯"] c6_item).2.2 rfl, rfl, rfl⟩

/-- Claim C7: whenever the configured checkInterval value cannot be
    converted by int(), the tick uses the default 120 seconds, logs the
    warning, and does not raise. -/
theorem c7_interval_clamp (env : TickEnv) (w : World) (v : ConfigVal) (e : PyErr)
    (hcfg : env.checkIntervalCfg = some v) (herr : py_int v = .error e) :
    interval_used env = 120 ∧ interval_warned env = true ∧
    timed_check_scheduler env w = .ok (tick_run env w) := by
  refine ⟨?_, ?_, timed_check_scheduler_eq env w⟩ <;>
    simp [interval_used, interval_warned, hcfg, herr]

/-- C7 witness tick environment with checkInterval configured as the
    string abc. -/
def c7_env : TickEnv :=
  { enablePush := true
    checkIntervalCfg := some (.vStr "abc")
    current_time := 50
    push := quiet_push }

/-- Witness for C7: checkInterval abc falls back to 120 with a warning
    and the tick returns normally. -/
theorem c7_witness :
    interval_used c7_env = 120 ∧ interval_warned c7_env = true ∧
    timed_check_scheduler c7_env { last_check_timestamp := 0, records := [] } =
      .ok (tick_run c7_env { last_check_timestamp := 0, records := [] }) :=
  c7_interval_clamp c7_env { last_check_timestamp := 0, records := [] }
    (.vStr "abc") .valueError rfl rfl

/-- Issuer of the C8 run: an admin in channel 10001 whose message
    arrived through bot account bot1. -/
def c8_ctx : MsgCtx := { is_admin := true, channel_id := "10001", appid := "bot1" }

/-- Claim C8 is falsified by the code as written: because main.py never
    imports json, json.dump raises NameError inside save_push_groups,
    whose handler returns False, so both the first and the second enable
    invocation reply with the error message (not the distinct
    already-enabled message) and no subscription entry with enabled true
    is ever persisted. -/
theorem c8_enable_broken :
    (enable_push { present := false, content := [] } c8_ctx 100).2 = msg_enable_err ∧
    (enable_push (enable_push { present := false, content := [] } c8_ctx 100).1
        c8_ctx 200).2 = msg_enable_err ∧
    get_enabled_groups
      (enable_push (enable_push { present := false, content := [] } c8_ctx 100).1
        c8_ctx 200).1 = [] ∧
    (enable_push (enable_push { present := false, content := [] } c8_ctx 100).1
        c8_ctx 200).2 ≠ msg_already_enabled := by
  refine ⟨rfl, rfl, rfl, ?_⟩
  decide

/-- Claim C9: no failure in the poll, select, render or dispatch core
    escapes to the host: the tick always returns ok; a raising, falsy or
    unparsable list response makes the cycle return none; a raising
    banner download degrades to the empty banner string; and a bulletin
    whose processing fails is merely skipped. -/
theorem c9_no_escape :
    (∀ (env : TickEnv) (w : World),
      timed_check_scheduler env w = .ok (tick_run env w)) ∧
    (∀ (env : CycleEnv) (records : List RecordRow) (force_latest : Bool)
        (message : Option MsgCtx) (e : PyErr),
      env.listOutcome = .raiseExc e →
      get_latest_bulletin env records force_latest message = none) ∧
    (∀ (env : CycleEnv) (records : List RecordRow) (force_latest : Bool)
        (message : Option MsgCtx),
      env.listOutcome = .noResp →
      get_latest_bulletin env records force_latest message = none) ∧
    (∀ (env : CycleEnv) (records : List RecordRow) (force_latest : Bool)
        (message : Option MsgCtx) (status : Int) (e : PyErr),
      env.listOutcome = .resp status (.error e) →
      get_latest_bulletin env records force_latest message = none) ∧
    (∀ (env : CycleEnv) (url : String) (e : PyErr),
      env.bannerOutcome url = .raiseExc e → bannerString env url = "") ∧
    (∀ (env : CycleEnv) (records : List RecordRow) (force_latest : Bool)
        (message : Option MsgCtx) (b : BulletinListItem)
        (rest : List BulletinListItem),
      process_bulletin env message b = none →
      scan_bulletins env records force_latest message (b :: rest) =
        scan_bulletins env records force_latest message rest) := by
  refine ⟨timed_check_scheduler_eq, ?_, ?_, ?_, ?_, scan_skip⟩
  · intro env records force_latest message e h
    simp [get_latest_bulletin, fetch_list, fetch_list_body, h, pyTryOpt, ite_self]
  · intro env records force_latest message h
    simp [get_latest_bulletin, fetch_list, fetch_list_body, h, pyTryOpt, ite_self]
  · intro env records force_latest message status e h
    by_cases hs : status = 200 <;>
      simp [get_latest_bulletin, fetch_list, fetch_list_body, h, pyTryOpt, hs, ite_self]
  · intro env url e h
    simp [bannerString, h]

/-- C9 witness environment: the list request raises. -/
def c9_env : CycleEnv :=
  { keywords := ["通讯"]
    curr_dir := ""
    listOutcome := .raiseExc (.generic "timeout")
    detailOutcome := fun _ => .noResp
    bannerOutcome := fun _ => .raiseExc (.generic "timeout")
    htmlRender := fun _ _ => .ok ()
    fmtTime := fun _ => "" }

/-- Witness for C9: the raising list fetch yields none, the raising
    banner fetch yields the empty banner, and a concrete tick returns
    ok. -/
theorem c9_witness :
    get_latest_bulletin c9_env [] false none = none ∧
    bannerString c9_env "u" = "" ∧
    timed_check_scheduler c4_env { last_check_timestamp := 0, records := [] } =
      .ok (tick_run c4_env { last_check_timestamp := 0, records := [] }) :=
  ⟨c9_no_escape.2.1 c9_env [] false none (.generic "timeout") rfl,
   c9_no_escape.2.2.2.2.1 c9_env "u" (.generic "timeout") rfl,
   c9_no_escape.1 c4_env { last_check_timestamp := 0, records := [] }⟩

/-- Claim C10: the manual trigger path never writes a DedupRecord: the
    plugin state is unchanged by manual_check, in particular the record
    rows, and a scheduled cycle afterwards behaves exactly as one without
    the manual run. -/
theorem c10_manual_frame (env : CycleEnv) (w : World) (data : MsgCtx)
    (p : PushEnv) :
    (manual_check env w data).1 = w ∧
    (manual_check env w data).1.records = w.records ∧
    execute_bulletin_push p (manual_check env w data).1 =
      execute_bulletin_push p w := by
  exact ⟨rfl, rfl, rfl⟩
